import Mathlib

/-!
Verification of the order-tracking core of `order_app_sqlite2.py`
(Order-Foxrun repository).

The embedding models the database helper layer and the reminder engine:

* Calendar dates are modelled by their day number (an `Int`); the function
  `daysFromCivil` maps a Gregorian `(year, month, day)` triple to its day
  number, so that the Python `datetime.strptime` / `timedelta(days=n)`
  arithmetic becomes integer addition on day numbers.
* A date-typed input string is modelled by `DateInput`: `null` is the Python
  `None` or `""` (falsy), `invalid` is a non-empty string rejected by
  `strptime(s, "%Y-%m-%d")`, and `valid d` is a string parsing to day
  number `d`.
* The Supabase `orders` table is modelled by a `List OrderRec`; `insert`
  appends a row, `update ... eq id` rewrites every row whose `id` matches
  (returning the affected rows as its `data`, the empty list when no row
  matches, with no error), `delete ... eq id` removes the matching rows,
  and `select ... eq id single` is a lookup (`find_order`).  We model the
  fault-free backend: storage faults (`err` non-null) are external and not
  represented, which matches the code paths that raise only when the
  backend reports an error.
-/

set_option autoImplicit false

namespace OrderFoxrun

/-- Day number of the Gregorian date `(y, m, d)` (days since 1970-01-01),
the standard civil-from-days inverse used to give concrete dates like
`2025-02-01` a meaning as an integer day count. -/
def daysFromCivil (y m d : Int) : Int :=
  let y2 := if m ≤ 2 then y - 1 else y
  let era := (if 0 ≤ y2 then y2 else y2 - 399) / 400
  let yoe := y2 - era * 400
  let mp := if 2 < m then m - 3 else m + 9
  let doy := (153 * mp + 2) / 5 + d - 1
  let doe := yoe * 365 + yoe / 4 - yoe / 100 + doy
  era * 146097 + doe - 719468

/-- A date-shaped input value as the Python helpers receive it:
`null` models `None`/`""` (falsy, so `if start_date_str:` skips it),
`invalid` models a non-empty string that `strptime(_, "%Y-%m-%d")` rejects,
`valid d` models a well-formed `YYYY-MM-DD` string denoting day number `d`. -/
inductive DateInput where
  | null : DateInput
  | invalid : DateInput
  | valid : Int → DateInput
deriving DecidableEq

/-- One row of the Supabase `orders` table.  Dates are stored as day
numbers (`expected_date`, `delivered_date` nullable), `start_date` is
stored verbatim as the input the caller supplied, and the money fields
follow the payload types of `add_order_db` / `update_order_db`
(`price_cny`/`quantity` nullable, `deposit_cny`/`total_cny` defaulted
to `0.0`). -/
structure OrderRec where
  id : Int
  order_code : String
  name : String
  start_date : DateInput
  lead_time : Option Int
  expected_date : Option Int
  delivered_date : Option Int
  status : String
  notes : String
  created_at : Int
  package_info : String
  price_cny : Option ℚ
  quantity : Option Int
  deposit_cny : ℚ
  total_cny : ℚ
deriving DecidableEq

/-- Module constant of the source: `REMINDER_DAYS = [9, 7, 5, 3]`. -/
def REMINDER_DAYS : List Int := [9, 7, 5, 3]

/-- The `expected` computation shared by `add_order_db` and
`update_order_db`:

```
expected = None
try:
    if start_date_str:
        expected = (datetime.strptime(start_date_str, "%Y-%m-%d")
                    + timedelta(days=int(lead_time_int))).date().isoformat()
except Exception:
    expected = None
```

A falsy `start_date_str` leaves `expected = None`; an unparseable one
raises inside the `try` and is swallowed to `None`; `int(None)` likewise
raises and is swallowed; only a valid date with a convertible lead time
yields `start + lead` days. -/
def computeExpected (start_date_str : DateInput) (lead_time_int : Option Int) : Option Int :=
  match start_date_str, lead_time_int with
  | DateInput.valid s, some l => some (s + l)
  | _, _ => none

/-- The insert payload built by `add_order_db` (plus the id the backend
assigns): `delivered_date` starts null, `status` starts as the pending
literal, `expected_date` is the derived value. -/
def insertPayload (newId created : Int) (order_code name : String)
    (start_date_str : DateInput) (lead_time_int : Option Int)
    (notes package_info : String) (price_cny : Option ℚ) (quantity : Option Int)
    (deposit_cny total_cny : Option ℚ) : OrderRec :=
  { id := newId
    order_code := order_code
    name := name
    start_date := start_date_str
    lead_time := lead_time_int
    expected_date := computeExpected start_date_str lead_time_int
    delivered_date := none
    status := "Đang sản xuất"
    notes := notes
    created_at := created
    package_info := package_info
    price_cny := price_cny
    quantity := quantity
    deposit_cny := deposit_cny.getD 0
    total_cny := total_cny.getD 0 }

/-- Function `add_order_db`: builds the insert payload and appends the new row.
`newId` is the id the backend assigns to the inserted row and `created`
models `datetime.utcnow()`. -/
def add_order_db (db : List OrderRec) (newId created : Int)
    (order_code name : String) (start_date_str : DateInput) (lead_time_int : Option Int)
    (notes package_info : String) (price_cny : Option ℚ) (quantity : Option Int)
    (deposit_cny total_cny : Option ℚ) : List OrderRec :=
  db ++ [insertPayload newId created order_code name start_date_str lead_time_int
    notes package_info price_cny quantity deposit_cny total_cny]

/-- Lookup of the row with the given id, as performed by
`select("expected_date").eq("id", order_id).single()`. -/
def find_order (db : List OrderRec) (order_id : Int) : Option OrderRec :=
  db.find? (fun r => r.id == order_id)

/-- The field rewrite performed on a matching row by the
`update_order_db` payload: every payload key is overwritten,
`delivered_date`, `status`, `id` and `created_at` are absent from the
payload and hence untouched. -/
def applyUpdate (order_code name : String) (start_date_str : DateInput)
    (lead_time_int : Option Int) (notes package_info : String) (price_cny : Option ℚ)
    (quantity : Option Int) (deposit_cny total_cny : Option ℚ) (r : OrderRec) : OrderRec :=
  { r with
    order_code := order_code
    name := name
    start_date := start_date_str
    lead_time := lead_time_int
    expected_date := computeExpected start_date_str lead_time_int
    notes := notes
    package_info := package_info
    price_cny := price_cny
    quantity := quantity
    deposit_cny := deposit_cny.getD 0
    total_cny := total_cny.getD 0 }

/-- Function `update_order_db`: `update(payload).eq("id", order_id)`.  Returns
the new table together with the backend `data` (the affected rows); when no
row has the id this is `([], db)`-style: the table is unchanged and the
data is empty — the backend reports no error for zero affected rows. -/
def update_order_db (db : List OrderRec) (order_id : Int)
    (order_code name : String) (start_date_str : DateInput) (lead_time_int : Option Int)
    (notes package_info : String) (price_cny : Option ℚ) (quantity : Option Int)
    (deposit_cny total_cny : Option ℚ) : List OrderRec × List OrderRec :=
  let db2 := db.map (fun r =>
    if r.id = order_id then
      applyUpdate order_code name start_date_str lead_time_int notes package_info
        price_cny quantity deposit_cny total_cny r
    else r)
  (db2, db2.filter (fun r => r.id == order_id))

/-- Function `delete_order_db`: `delete().eq("id", order_id)`.  Returns the new
table and the deleted rows as `data`; deleting a missing id affects zero
rows and reports no error. -/
def delete_order_db (db : List OrderRec) (order_id : Int) :
    List OrderRec × List OrderRec :=
  (db.filter (fun r => !(r.id == order_id)), db.filter (fun r => r.id == order_id))

/-- The status text computed by `mark_delivered_db` from
`delta = (delivered - expected).days`. -/
def deliveryStatus (expected delivered : Int) : String :=
  let delta := delivered - expected
  if delta = 0 then "✅ Đã giao đúng hẹn"
  else if 0 < delta then "🚨 Đã giao trễ " ++ toString delta ++ " ngày"
  else "⏱️ Đã giao sớm " ++ toString (-delta) ++ " ngày"

/-- Function `mark_delivered_db`: fetch `expected_date` for the id, validate it
and the delivered date, classify, and persist the delivered date and status in a
single update.  Returns `(new table, ok, message)` mirroring the Python
`(False, error)` / `(True, status)` results; every failure path leaves the
table untouched.  (The stored `expected_date` is always a day number in
this model, so the `pd.to_datetime` re-parse of a stored value cannot
fail; its failure branch is unreachable here.) -/
def mark_delivered_db (db : List OrderRec) (order_id : Int)
    (delivered_date_str : DateInput) : List OrderRec × Bool × String :=
  match find_order db order_id with
  | none => (db, false, "Không tìm thấy bản ghi.")
  | some r =>
    match r.expected_date with
    | none => (db, false, "Không tìm thấy ngày dự kiến để so sánh.")
    | some expected =>
      match delivered_date_str with
      | DateInput.valid delivered =>
        let status := deliveryStatus expected delivered
        (db.map (fun s =>
            if s.id = order_id then
              { s with delivered_date := some delivered, status := status }
            else s),
         true, status)
      | _ => (db, false, "Sai định dạng ngày (phải YYYY-MM-DD).")

/-- The loop body of `build_reminders` for one pending row: skip when
`expected_date` is null, otherwise classify `days_left = expected - today`
by the if/elif chain of the source and render the message. -/
def reminderFor (today : Int) (r : OrderRec) : Option String :=
  match r.expected_date with
  | none => none
  | some expected =>
    let days_left := expected - today
    if days_left < 0 then
      some ("⚠️ [TRỄ] " ++ r.name ++ " (ID:" ++ toString r.id ++ ") đã trễ "
        ++ toString (-days_left) ++ " ngày (dự kiến " ++ toString expected ++ ")")
    else if days_left = 0 then
      some ("🚨 [HÔM NAY] " ++ r.name ++ " (ID:" ++ toString r.id
        ++ ") đến hạn hôm nay (" ++ toString expected ++ ")")
    else if days_left ∈ REMINDER_DAYS then
      some ("🔔 [SẮP ĐẾN HẠN - " ++ toString days_left ++ " ngày] " ++ r.name
        ++ " (ID:" ++ toString r.id ++ ") dự kiến " ++ toString expected)
    else none

/-- Function `build_reminders`: restrict to the pending rows
(`df[df["delivered_date"].isna()]`) and collect the messages of the loop
body, preserving the iteration order of the input table. -/
def build_reminders (db : List OrderRec) (today : Int) : List String :=
  (db.filter (fun r => r.delivered_date.isNone)).filterMap (reminderFor today)

/-- The export-path filter (`df_remind`, lines 424–431): restrict to
pending rows, compute `days_left`, and keep rows with
`days_left.isin(REMINDER_DAYS + [0]) | (days_left < 0)`.  A pending row
with a null `expected_date` has `days_left = NaN`, which fails both the
`isin` test and the `< 0` test, so it is dropped. -/
def selectReminderSubset (db : List OrderRec) (today : Int) : List OrderRec :=
  let df_pending := db.filter (fun r => r.delivered_date.isNone)
  df_pending.filter (fun r =>
    match r.expected_date with
    | some expected =>
      decide ((expected - today) ∈ REMINDER_DAYS ++ [0]) || decide (expected - today < 0)
    | none => false)

/-! ### Helper lemmas -/

/-- Looking up a freshly appended row finds it. -/
lemma find_order_append_fresh (db : List OrderRec) (r : OrderRec) (oid : Int)
    (hid : r.id = oid) (hfresh : ∀ s ∈ db, s.id ≠ oid) :
    find_order (db ++ [r]) oid = some r := by
  unfold find_order
  rw [List.find?_append]
  have h1 : db.find? (fun s => s.id == oid) = none := by
    rw [List.find?_eq_none]
    intro x hx
    simpa using hfresh x hx
  rw [h1]
  simp [hid]

/-- Finding a row by id commutes with a row transformation that preserves ids. -/
lemma find_order_map (db : List OrderRec) (oid : Int) (f : OrderRec → OrderRec)
    (hf : ∀ s, (f s).id = s.id) :
    find_order (db.map f) oid = (find_order db oid).map f := by
  induction db with
  | nil => rfl
  | cons a l ih =>
    unfold find_order at *
    cases h : (a.id == oid) <;>
      simp [List.find?_cons, hf, h, ih]

/-- Filtering a list to the elements on which `f` fires does not change
the result of `filterMap f`. -/
lemma filterMap_filter_isSome {α β : Type} (f : α → Option β) (l : List α) :
    (l.filter (fun a => (f a).isSome)).filterMap f = l.filterMap f := by
  induction l with
  | nil => rfl
  | cons a l ih =>
    cases h : f a with
    | none => simp [List.filter_cons, List.filterMap_cons, h, ih]
    | some b => simp [List.filter_cons, List.filterMap_cons, h, ih]

/-- Filtering before a `filterMap` is the same as guarding the mapped
function by the filter predicate. -/
lemma filterMap_filter_eq {α β : Type} (p : α → Bool) (f : α → Option β) (l : List α) :
    (l.filter p).filterMap f
      = l.filterMap (fun a => if p a then f a else none) := by
  induction l with
  | nil => rfl
  | cons a l ih =>
    cases hp : p a <;> simp [List.filter_cons, List.filterMap_cons, hp, ih]

/-! ### C1: expected-date derivation and round trip -/

/-- C1. For every parseable `start_date` and non-negative integer
`lead_time`, `add_order_db` stores `expected_date = start_date +
lead_time` days (and the inserted row can be read back by its id), and
`update_order_db` stores the same derived `expected_date` on every row it
updates. -/
theorem expected_date_derivation (db : List OrderRec) (newId created : Int)
    (code nm : String) (s l : Int) (hl : 0 ≤ l) (notes pkg : String)
    (price : Option ℚ) (qty : Option Int) (dep tot : Option ℚ) (oid : Int)
    (hfresh : ∀ r ∈ db, r.id ≠ newId) :
    (∃ r, find_order (add_order_db db newId created code nm (DateInput.valid s) (some l)
            notes pkg price qty dep tot) newId = some r ∧ r.expected_date = some (s + l))
  ∧ (∀ r2 ∈ (update_order_db db oid code nm (DateInput.valid s) (some l)
            notes pkg price qty dep tot).1, r2.id = oid → r2.expected_date = some (s + l)) := by
  constructor
  · refine ⟨_, find_order_append_fresh db _ newId rfl hfresh, ?_⟩
    rfl
  · intro r2 hmem hid
    unfold update_order_db at hmem
    simp only [List.mem_map] at hmem
    obtain ⟨r, _, hr2⟩ := hmem
    by_cases h : r.id = oid
    · rw [← hr2, if_pos h]; rfl
    · rw [← hr2, if_neg h] at hid
      exact absurd hid h

/-- C1 witness. Creating an order with `start_date = 2025-02-01` and
`lead_time = 20` in an empty store and reading it back yields
`expected_date = 2025-02-21`. -/
theorem expected_date_derivation_witness :
    ∃ r, find_order (add_order_db [] 1 0 "OD1" "KH - SP"
          (DateInput.valid (daysFromCivil 2025 2 1)) (some 20) "" "" none none none none) 1
        = some r ∧ r.expected_date = some (daysFromCivil 2025 2 21) := by
  have h := (expected_date_derivation [] 1 0 "OD1" "KH - SP" (daysFromCivil 2025 2 1) 20
    (by decide) "" "" none none none none 1 (by simp)).1
  have he : daysFromCivil 2025 2 1 + 20 = daysFromCivil 2025 2 21 := by decide
  rwa [he] at h

/-! ### Sample rows used by witnesses -/

/-- A sample open order with `expected_date` = day 110. -/
def sampleOrder : OrderRec :=
  { id := 1
    order_code := "OD1"
    name := "KH - SP"
    start_date := DateInput.valid 100
    lead_time := some 10
    expected_date := some 110
    delivered_date := none
    status := "Đang sản xuất"
    notes := ""
    created_at := 0
    package_info := ""
    price_cny := none
    quantity := none
    deposit_cny := 0
    total_cny := 0 }

/-- A sample open order created without a start date: `expected_date` is null. -/
def sampleOrderNoExpected : OrderRec :=
  { sampleOrder with id := 2, start_date := DateInput.null, expected_date := none }

/-! ### C2: delivery classification -/

/-- C2. For an order with a non-null `expected_date` and a valid
`delivered_date`, `mark_delivered_db` succeeds and sets the status by the
signed day delta `delivered - expected`: zero gives the on-time text,
positive gives the late-by-delta text, negative gives the
early-by-|delta| text; the returned status and the delivered date are
persisted together on the matching rows by the single update. -/
theorem mark_delivered_classification (db : List OrderRec) (oid : Int) (r : OrderRec)
    (e d : Int) (hfind : find_order db oid = some r) (hexp : r.expected_date = some e) :
    (mark_delivered_db db oid (DateInput.valid d)).2.1 = true
  ∧ (mark_delivered_db db oid (DateInput.valid d)).2.2 = deliveryStatus e d
  ∧ (d - e = 0 → deliveryStatus e d = "✅ Đã giao đúng hẹn")
  ∧ (0 < d - e → deliveryStatus e d = "🚨 Đã giao trễ " ++ toString (d - e) ++ " ngày")
  ∧ (d - e < 0 → deliveryStatus e d = "⏱️ Đã giao sớm " ++ toString (e - d) ++ " ngày")
  ∧ (∀ r2 ∈ (mark_delivered_db db oid (DateInput.valid d)).1, r2.id = oid →
        r2.delivered_date = some d ∧ r2.status = deliveryStatus e d) := by
  have hmark : mark_delivered_db db oid (DateInput.valid d)
      = (db.map (fun s => if s.id = oid then
            { s with delivered_date := some d, status := deliveryStatus e d } else s),
         true, deliveryStatus e d) := by
    simp only [mark_delivered_db, hfind, hexp]
  refine ⟨by rw [hmark], by rw [hmark], ?_, ?_, ?_, ?_⟩
  · intro h
    simp only [deliveryStatus]
    rw [if_pos h]
  · intro h
    simp only [deliveryStatus]
    rw [if_neg (by omega), if_pos h]
  · intro h
    simp only [deliveryStatus]
    rw [if_neg (by omega), if_neg (by omega), neg_sub]
  · intro r2 hmem hid
    rw [hmark] at hmem
    simp only [List.mem_map] at hmem
    obtain ⟨s0, _, hr2⟩ := hmem
    by_cases h : s0.id = oid
    · rw [← hr2, if_pos h]
      exact ⟨rfl, rfl⟩
    · rw [← hr2, if_neg h] at hid
      exact absurd hid h

/-- C2 witness. Delivering the sample order (expected day 110) on day
115 succeeds with the late-by-5-days status. -/
theorem mark_delivered_classification_witness :
    (mark_delivered_db [sampleOrder] 1 (DateInput.valid 115)).2.1 = true
  ∧ (mark_delivered_db [sampleOrder] 1 (DateInput.valid 115)).2.2
      = "🚨 Đã giao trễ " ++ toString ((115 : Int) - 110) ++ " ngày" := by
  have h := mark_delivered_classification [sampleOrder] 1 sampleOrder 110 115 rfl rfl
  exact ⟨h.1, h.2.1.trans (h.2.2.2.1 (by decide))⟩

/-! ### C3: reminder classification -/

/-- C3. `build_reminders` equals the single pass over the input table
that emits an entry exactly for the open rows (`delivered_date` null)
with a non-null `expected_date` whose `days_left = expected_date - today`
is negative (overdue, magnitude `|days_left|`), zero (due today), or a
member of the window `[9, 7, 5, 3]` (upcoming, magnitude `days_left`);
every other row contributes nothing (closed rows and null
`expected_date` rows are skipped without error), and the output preserves
the input iteration order. -/
theorem build_reminders_spec (db : List OrderRec) (today : Int) :
    build_reminders db today
      = db.filterMap (fun r =>
          match r.delivered_date, r.expected_date with
          | none, some expected =>
            if expected - today < 0 then
              some ("⚠️ [TRỄ] " ++ r.name ++ " (ID:" ++ toString r.id ++ ") đã trễ "
                ++ toString (today - expected) ++ " ngày (dự kiến " ++ toString expected ++ ")")
            else if expected - today = 0 then
              some ("🚨 [HÔM NAY] " ++ r.name ++ " (ID:" ++ toString r.id
                ++ ") đến hạn hôm nay (" ++ toString expected ++ ")")
            else if expected - today ∈ ([9, 7, 5, 3] : List Int) then
              some ("🔔 [SẮP ĐẾN HẠN - " ++ toString (expected - today) ++ " ngày] " ++ r.name
                ++ " (ID:" ++ toString r.id ++ ") dự kiến " ++ toString expected)
            else none
          | _, _ => none) := by
  unfold build_reminders
  rw [filterMap_filter_eq]
  apply List.filterMap_congr
  intro r _
  cases hd : r.delivered_date with
  | some v => simp [hd]
  | none =>
    cases he : r.expected_date with
    | none => simp [hd, he, reminderFor]
    | some expected => simp [hd, he, reminderFor, neg_sub, REMINDER_DAYS]

/-! ### More helper lemmas for the delivery path -/

/-- Normal form of a successful `mark_delivered_db` call. -/
lemma mark_delivered_db_found (db : List OrderRec) (oid : Int) (r : OrderRec) (e d : Int)
    (hfind : find_order db oid = some r) (hexp : r.expected_date = some e) :
    mark_delivered_db db oid (DateInput.valid d)
      = (db.map (fun s => if s.id = oid then
            { s with delivered_date := some d, status := deliveryStatus e d } else s),
         true, deliveryStatus e d) := by
  simp only [mark_delivered_db, hfind, hexp]

/-- Calling `mark_delivered_db` on an order without an `expected_date` always
fails with the missing-expected-date message and leaves the table
untouched, whatever the delivered-date input is. -/
lemma mark_delivered_db_no_expected (db : List OrderRec) (oid : Int) (r : OrderRec)
    (hfind : find_order db oid = some r) (hexp : r.expected_date = none) (dstr : DateInput) :
    mark_delivered_db db oid dstr
      = (db, false, "Không tìm thấy ngày dự kiến để so sánh.") := by
  simp only [mark_delivered_db, hfind, hexp]

/-! ### C5: delivery-confirmation preconditions -/

/-- C5. `mark_delivered_db` on an existing order fails, leaving the
table unchanged, exactly when a precondition is violated: null
`expected_date` gives the missing-expected-date failure, an unparseable
`delivered_date` gives the invalid-date-format failure, and when both
preconditions hold the call succeeds. -/
theorem mark_delivered_precondition_cases (db : List OrderRec) (oid : Int)
    (dstr : DateInput) (r : OrderRec) (hfind : find_order db oid = some r) :
    (r.expected_date = none →
        mark_delivered_db db oid dstr
          = (db, false, "Không tìm thấy ngày dự kiến để so sánh."))
  ∧ (∀ e, r.expected_date = some e → (∀ d, dstr ≠ DateInput.valid d) →
        mark_delivered_db db oid dstr
          = (db, false, "Sai định dạng ngày (phải YYYY-MM-DD)."))
  ∧ (∀ e d, r.expected_date = some e → dstr = DateInput.valid d →
        (mark_delivered_db db oid dstr).2.1 = true) := by
  refine ⟨?_, ?_, ?_⟩
  · intro hnone
    exact mark_delivered_db_no_expected db oid r hfind hnone dstr
  · intro e he hnv
    simp only [mark_delivered_db, hfind, he]
  · intro e d he hv
    subst hv
    rw [mark_delivered_db_found db oid r e d hfind he]

/-- C5 witness. On the sample order without an expected date, the
call fails with the missing-expected-date message and no change. -/
theorem mark_delivered_precondition_cases_witness :
    mark_delivered_db [sampleOrderNoExpected] 2 (DateInput.valid 5)
      = ([sampleOrderNoExpected], false, "Không tìm thấy ngày dự kiến để so sánh.") :=
  (mark_delivered_precondition_cases [sampleOrderNoExpected] 2 (DateInput.valid 5)
    sampleOrderNoExpected rfl).1 rfl

/-! ### C6: export filter vs reminder engine -/

/-- C6. The export-path filter keeps exactly the open rows on which
the reminder loop body fires, and `build_reminders` is the map of that
loop body over exactly the selected rows: the two paths classify by one
consistent predicate. -/
theorem select_matches_reminders (db : List OrderRec) (today : Int) :
    selectReminderSubset db today
      = (db.filter (fun r => r.delivered_date.isNone)).filter
          (fun r => (reminderFor today r).isSome)
  ∧ build_reminders db today
      = (selectReminderSubset db today).filterMap (reminderFor today) := by
  have hpred : ∀ r : OrderRec,
      (match r.expected_date with
        | some expected =>
          decide ((expected - today) ∈ REMINDER_DAYS ++ [0]) || decide (expected - today < 0)
        | none => false) = (reminderFor today r).isSome := by
    intro r
    cases he : r.expected_date with
    | none => simp [reminderFor, he]
    | some expected =>
      simp only [reminderFor, he, REMINDER_DAYS]
      by_cases h1 : expected - today < 0
      · simp [h1]
      · by_cases h2 : expected - today = 0
        · simp [h1, h2]
        · by_cases h3 : expected - today ∈ ([9, 7, 5, 3] : List Int)
          · simp only [if_neg h1, if_neg h2, if_pos h3, Option.isSome_some]
            simp only [List.mem_cons, List.not_mem_nil, or_false] at h3
            simp [List.mem_append]
            omega
          · simp only [if_neg h1, if_neg h2, if_neg h3, Option.isSome_none]
            simp only [List.mem_cons, List.not_mem_nil, or_false] at h3
            simp only [List.mem_append, List.mem_cons, List.not_mem_nil, or_false,
              Bool.or_eq_false_iff, decide_eq_false_iff_not]
            constructor
            · intro hc
              rcases hc with hc | hc <;> omega
            · omega
  have hA : selectReminderSubset db today
      = (db.filter (fun r => r.delivered_date.isNone)).filter
          (fun r => (reminderFor today r).isSome) := by
    unfold selectReminderSubset
    exact List.filter_congr (fun r _ => hpred r)
  refine ⟨hA, ?_⟩
  rw [hA, filterMap_filter_isSome]
  rfl

/-! ### C7: idempotence of delivery confirmation -/

/-- C7. The status produced by `mark_delivered_db` is a pure function
of `(expected_date, delivered_date)`, and re-confirming with the same
delivered date succeeds with the same status and leaves the table
exactly as after the first confirmation. -/
theorem mark_delivered_idempotent (db : List OrderRec) (oid : Int) (r : OrderRec)
    (e d : Int) (hfind : find_order db oid = some r) (hexp : r.expected_date = some e) :
    (mark_delivered_db db oid (DateInput.valid d)).2.2 = deliveryStatus e d
  ∧ mark_delivered_db ((mark_delivered_db db oid (DateInput.valid d)).1) oid
        (DateInput.valid d)
      = ((mark_delivered_db db oid (DateInput.valid d)).1, true, deliveryStatus e d) := by
  have hgid : ∀ s : OrderRec,
      ((fun s : OrderRec => if s.id = oid then
          { s with delivered_date := some d, status := deliveryStatus e d } else s) s).id
        = s.id := by
    intro s
    by_cases h : s.id = oid <;> simp [h]
  have hroid : r.id = oid := by
    have hf : db.find? (fun s => s.id == oid) = some r := hfind
    simpa using List.find?_some hf
  have h1 := mark_delivered_db_found db oid r e d hfind hexp
  have hfind2 : find_order ((mark_delivered_db db oid (DateInput.valid d)).1) oid
      = some { r with delivered_date := some d, status := deliveryStatus e d } := by
    rw [h1]
    rw [find_order_map db oid _ hgid, hfind]
    simp [hroid]
  have h2 := mark_delivered_db_found ((mark_delivered_db db oid (DateInput.valid d)).1) oid
    _ e d hfind2 hexp
  refine ⟨by rw [h1], ?_⟩
  rw [h2, h1]
  simp only [List.map_map]
  congr 1
  apply List.map_congr_left
  intro s _
  by_cases h : s.id = oid <;> simp [Function.comp, h]

/-- C7 witness. Confirming the sample order twice on day 110 (its
expected day) returns the on-time status both times with no further
table change. -/
theorem mark_delivered_idempotent_witness :
    (mark_delivered_db [sampleOrder] 1 (DateInput.valid 110)).2.2 = deliveryStatus 110 110
  ∧ mark_delivered_db ((mark_delivered_db [sampleOrder] 1 (DateInput.valid 110)).1) 1
        (DateInput.valid 110)
      = ((mark_delivered_db [sampleOrder] 1 (DateInput.valid 110)).1, true,
         deliveryStatus 110 110) :=
  mark_delivered_idempotent [sampleOrder] 1 sampleOrder 110 110 rfl rfl

/-! ### C8: update frame -/

/-- C8. For every row of the table, `update_order_db` leaves
`delivered_date`, `status`, `id` and `created_at` unchanged; on the rows
whose id matches it overwrites `order_code`, `name`, `start_date`,
`lead_time`, `notes`, `package_info`, the money fields, and the
recomputed `expected_date`, and it leaves every other row untouched. -/
theorem update_order_frame (db : List OrderRec) (oid : Int) (code nm : String)
    (start : DateInput) (lead : Option Int) (notes pkg : String) (price : Option ℚ)
    (qty : Option Int) (dep tot : Option ℚ) (r : OrderRec) (hr : r ∈ db) :
    ∃ r2 ∈ (update_order_db db oid code nm start lead notes pkg price qty dep tot).1,
      r2.delivered_date = r.delivered_date ∧ r2.status = r.status
      ∧ r2.id = r.id ∧ r2.created_at = r.created_at
      ∧ (r.id = oid →
          r2.order_code = code ∧ r2.name = nm ∧ r2.start_date = start
          ∧ r2.lead_time = lead ∧ r2.expected_date = computeExpected start lead
          ∧ r2.notes = notes ∧ r2.package_info = pkg ∧ r2.price_cny = price
          ∧ r2.quantity = qty ∧ r2.deposit_cny = dep.getD 0 ∧ r2.total_cny = tot.getD 0)
      ∧ (r.id ≠ oid → r2 = r) := by
  by_cases h : r.id = oid
  · refine ⟨applyUpdate code nm start lead notes pkg price qty dep tot r, ?_, rfl, rfl, rfl,
      rfl, fun _ => ⟨rfl, rfl, rfl, rfl, rfl, rfl, rfl, rfl, rfl, rfl, rfl⟩,
      fun hne => absurd h hne⟩
    simp only [update_order_db, List.mem_map]
    exact ⟨r, hr, by rw [if_pos h]⟩
  · refine ⟨r, ?_, rfl, rfl, rfl, rfl, fun hid => absurd hid h, fun _ => rfl⟩
    simp only [update_order_db, List.mem_map]
    exact ⟨r, hr, by rw [if_neg h]⟩

/-- C8 witness. Updating the sample order keeps its null
`delivered_date` and pending status. -/
theorem update_order_frame_witness :
    ∃ r2 ∈ (update_order_db [sampleOrder] 1 "OD2" "KH2 - SP2" (DateInput.valid 200) (some 5)
        "n" "p" none none none none).1,
      r2.delivered_date = none ∧ r2.status = "Đang sản xuất" := by
  obtain ⟨r2, hmem, hdel, hst, -⟩ :=
    update_order_frame [sampleOrder] 1 "OD2" "KH2 - SP2" (DateInput.valid 200) (some 5)
      "n" "p" none none none none sampleOrder (by simp)
  exact ⟨r2, hmem, hdel.trans rfl, hst.trans rfl⟩

/-! ### C4 (corrected): a non-parseable start date does not reject the write -/

/-- C4 counterexample. Creating an order with a non-parseable
`start_date` in an empty store is *not* rejected: a record is inserted,
with a null `expected_date`. -/
theorem nonparseable_start_write_not_rejected :
    add_order_db [] 1 0 "OD1" "KH - SP" DateInput.invalid (some 20) "" "" none none none none
        ≠ ([] : List OrderRec)
  ∧ (find_order (add_order_db [] 1 0 "OD1" "KH - SP" DateInput.invalid (some 20)
        "" "" none none none none) 1).map OrderRec.expected_date = some none := by
  constructor
  · simp [add_order_db]
  · rfl

/-- C4 amended. For every create or update where the supplied
`start_date` is non-parseable, the derivation silently yields a null
`expected_date` and the write still proceeds: `add_order_db` inserts the
record (with `expected_date` null) and `update_order_db` overwrites the
fields of the matching records (storing `expected_date` null); no error is
raised and nothing is rejected. -/
theorem nonparseable_start_stores_null (db : List OrderRec) (newId created : Int)
    (code nm : String) (lead : Option Int) (notes pkg : String) (price : Option ℚ)
    (qty : Option Int) (dep tot : Option ℚ) (oid : Int)
    (hfresh : ∀ r ∈ db, r.id ≠ newId) :
    (∃ r, find_order (add_order_db db newId created code nm DateInput.invalid lead
            notes pkg price qty dep tot) newId = some r ∧ r.expected_date = none)
  ∧ (update_order_db db oid code nm DateInput.invalid lead notes pkg price qty
        dep tot).1.length = db.length
  ∧ (∀ r2 ∈ (update_order_db db oid code nm DateInput.invalid lead notes pkg price qty
        dep tot).1, r2.id = oid → r2.expected_date = none) := by
  refine ⟨⟨_, find_order_append_fresh db _ newId rfl hfresh, ?_⟩, ?_, ?_⟩
  · cases lead <;> rfl
  · simp [update_order_db]
  · intro r2 hmem hid
    simp only [update_order_db, List.mem_map] at hmem
    obtain ⟨r, _, hr2⟩ := hmem
    by_cases h : r.id = oid
    · rw [← hr2, if_pos h]
      show computeExpected DateInput.invalid lead = none
      cases lead <;> rfl
    · rw [← hr2, if_neg h] at hid
      exact absurd hid h

/-- C4 amended witness. Concrete instance: invalid start date, store
with one fresh row; the insert lands with a null `expected_date`. -/
theorem nonparseable_start_stores_null_witness :
    ∃ r, find_order (add_order_db [sampleOrder] 7 0 "OD7" "KH7" DateInput.invalid (some 20)
        "" "" none none none none) 7 = some r ∧ r.expected_date = none :=
  (nonparseable_start_stores_null [sampleOrder] 7 0 "OD7" "KH7" (some 20) "" "" none none
    none none 7 (by decide)).1

/-! ### C9 (corrected): update on a missing id is a silent no-op -/

/-- C9 counterexample. Updating an id absent from the store does not
create a record, but it also reports no error of any kind: the operation
returns normally with the store unchanged and zero affected rows (the
modelled backend reports an error only for storage faults, never for
zero matches), contradicting the claimed `NotFoundError`. -/
theorem update_missing_id_silent_noop :
    update_order_db [sampleOrder] 99 "OD9" "X" DateInput.null none "" "" none none none none
      = ([sampleOrder], []) := rfl

/-- C9 amended. `update_order_db` on an id not present in the store
does not create a record and completes successfully as a no-op (store
unchanged, zero affected rows, no `NotFoundError` reported), and
`delete_order_db` on a missing id returns success with the store
unchanged. -/
theorem update_missing_noop_delete_idempotent (db : List OrderRec) (oid : Int)
    (code nm : String) (start : DateInput) (lead : Option Int) (notes pkg : String)
    (price : Option ℚ) (qty : Option Int) (dep tot : Option ℚ)
    (hmiss : ∀ r ∈ db, r.id ≠ oid) :
    update_order_db db oid code nm start lead notes pkg price qty dep tot = (db, [])
  ∧ delete_order_db db oid = (db, []) := by
  have hmap : db.map (fun r => if r.id = oid then
      applyUpdate code nm start lead notes pkg price qty dep tot r else r) = db := by
    conv_rhs => rw [show db = db.map id from (List.map_id db).symm]
    apply List.map_congr_left
    intro r hr
    show (if r.id = oid then applyUpdate code nm start lead notes pkg price qty dep tot r
      else r) = id r
    rw [if_neg (hmiss r hr)]
    rfl
  have hfilter : db.filter (fun r => r.id == oid) = [] := by
    rw [List.filter_eq_nil_iff]
    intro r hr
    simpa using hmiss r hr
  constructor
  · simp only [update_order_db]
    rw [hmap, hfilter]
  · simp only [delete_order_db]
    rw [hfilter]
    have hkeep : db.filter (fun r => !(r.id == oid)) = db := by
      rw [List.filter_eq_self]
      intro r hr
      simpa using hmiss r hr
    rw [hkeep]

/-- C9 amended witness. Concrete instance on a one-row store and a
missing id. -/
theorem update_missing_noop_delete_idempotent_witness :
    update_order_db [sampleOrder] 42 "ODX" "Y" (DateInput.valid 7) (some 1) "" ""
        none none none none = ([sampleOrder], [])
  ∧ delete_order_db [sampleOrder] 42 = ([sampleOrder], []) :=
  update_missing_noop_delete_idempotent [sampleOrder] 42 "ODX" "Y" (DateInput.valid 7)
    (some 1) "" "" none none none none (by decide)

/-! ### C10: orders created without a derivable expected date -/

/-- C10. An order can be created with a null/empty `start_date` (or a
lead time `int()` cannot convert): it persists with a null
`expected_date` and the pending status literal; such an order adds
nothing to `build_reminders` output (it is always skipped), and
`mark_delivered_db` on it always fails with the missing-expected-date
message changing nothing — until an update supplying a parseable
`start_date` and lead time stores a recomputed non-null
`expected_date`. -/
theorem unparseable_inputs_order_stuck (db : List OrderRec) (newId created : Int)
    (code nm : String) (start : DateInput) (lead : Option Int) (notes pkg : String)
    (price : Option ℚ) (qty : Option Int) (dep tot : Option ℚ)
    (hexp : computeExpected start lead = none)
    (hfresh : ∀ r ∈ db, r.id ≠ newId) :
    (∃ r, find_order (add_order_db db newId created code nm start lead notes pkg price qty
          dep tot) newId = some r
        ∧ r.expected_date = none ∧ r.status = "Đang sản xuất" ∧ r.delivered_date = none)
  ∧ (∀ today, build_reminders (add_order_db db newId created code nm start lead notes pkg
        price qty dep tot) today = build_reminders db today)
  ∧ (∀ dstr, mark_delivered_db (add_order_db db newId created code nm start lead notes pkg
        price qty dep tot) newId dstr
      = (add_order_db db newId created code nm start lead notes pkg price qty dep tot,
         false, "Không tìm thấy ngày dự kiến để so sánh."))
  ∧ (∀ s2 l2 : Int, ∀ r2 ∈ (update_order_db (add_order_db db newId created code nm start
        lead notes pkg price qty dep tot) newId code nm (DateInput.valid s2) (some l2)
        notes pkg price qty dep tot).1, r2.id = newId → r2.expected_date = some (s2 + l2)) := by
  have hpay : (insertPayload newId created code nm start lead notes pkg price qty
      dep tot).expected_date = none := hexp
  have hfind : find_order (add_order_db db newId created code nm start lead notes pkg price
      qty dep tot) newId = some (insertPayload newId created code nm start lead notes pkg
      price qty dep tot) :=
    find_order_append_fresh db _ newId rfl hfresh
  refine ⟨⟨_, hfind, hpay, rfl, rfl⟩, ?_, ?_, ?_⟩
  · intro today
    unfold build_reminders add_order_db
    rw [List.filter_append, List.filterMap_append]
    have : reminderFor today (insertPayload newId created code nm start lead notes pkg
        price qty dep tot) = none := by
      simp only [reminderFor, hpay]
    simp [this]
  · intro dstr
    exact mark_delivered_db_no_expected _ newId _ hfind hpay dstr
  · intro s2 l2 r2 hmem hid
    simp only [update_order_db, List.mem_map] at hmem
    obtain ⟨r, _, hr2⟩ := hmem
    by_cases h : r.id = newId
    · rw [← hr2, if_pos h]
      rfl
    · rw [← hr2, if_neg h] at hid
      exact absurd hid h

/-- C10 witness. Creating an order with a null start date in an empty
store: it persists pending with null `expected_date`, contributes no
reminder on day 0, and cannot be marked delivered. -/
theorem unparseable_inputs_order_stuck_witness :
    (∃ r, find_order (add_order_db [] 1 0 "OD1" "KH - SP" DateInput.null (some 30) "" ""
          none none none none) 1 = some r
        ∧ r.expected_date = none ∧ r.status = "Đang sản xuất" ∧ r.delivered_date = none)
  ∧ (∀ dstr, mark_delivered_db (add_order_db [] 1 0 "OD1" "KH - SP" DateInput.null (some 30)
        "" "" none none none none) 1 dstr
      = (add_order_db [] 1 0 "OD1" "KH - SP" DateInput.null (some 30) "" "" none none
          none none, false, "Không tìm thấy ngày dự kiến để so sánh.")) := by
  have h := unparseable_inputs_order_stuck [] 1 0 "OD1" "KH - SP" DateInput.null (some 30)
    "" "" none none none none rfl (by simp)
  exact ⟨h.1, h.2.2.1⟩

end OrderFoxrun
